import Mathlib

/-!
Shallow embedding of the `mcpserverai` weather MCP server
(`src/unnamed/part_000`, the HTTP variant, and `src/src/index.ts`, the stdio
variant; the tool layer is identical in both).

Part A embeds the two weather tools (`get_alerts`, `get_forecast`): the NWS
response shapes, text formatting, truncation, and the catch-all error paths.
The outbound `fetch` is external; an upstream call is modelled as a function
from the request URL to `Except String r`, where `Except.error` stands for a
throw inside `nwsRequest` (non-OK HTTP status or an unparseable body).

Part B embeds the HTTP session layer of `main` in `src/unnamed/part_000`:
the session registry (`sessions : Map`), request routing, `sendJsonError`,
and the close path. Session identifiers produced by `randomUUID` are
modelled as naturals drawn from a fresh counter.
-/

namespace Weather

/-- Properties of one NWS alert feature (`NwsAlertsResponse.features[i].properties`). -/
structure AlertProps where
  event : Option String := none
  areaDesc : Option String := none
  severity : Option String := none
  headline : Option String := none
  description : Option String := none
  instruction : Option String := none
deriving DecidableEq, Inhabited

/-- One NWS alert feature. -/
structure Alert where
  properties : Option AlertProps := none
deriving DecidableEq, Inhabited

/-- Parsed body of the alerts endpoint (`NwsAlertsResponse`). -/
structure AlertsResponse where
  features : Option (List Alert) := none
deriving DecidableEq, Inhabited

/-- Parsed body of the points endpoint (`NwsPointResponse`): only the
`properties.forecast` URL is consulted by the code. -/
structure PointResponse where
  forecast : Option String := none
deriving DecidableEq, Inhabited

/-- One forecast period (`NwsForecastResponse.properties.periods[i]`). -/
structure ForecastPeriod where
  name : Option String := none
  detailedForecast : Option String := none
  temperature : Option Int := none
  temperatureUnit : Option String := none
  windSpeed : Option String := none
  windDirection : Option String := none
  shortForecast : Option String := none
deriving DecidableEq, Inhabited

/-- Parsed body of the forecast endpoint (`NwsForecastResponse`). -/
structure ForecastResponse where
  periods : Option (List ForecastPeriod) := none
deriving DecidableEq, Inhabited

/-- One content block of a tool result; the code only ever emits text blocks. -/
structure ContentBlock where
  text : String
deriving DecidableEq, Inhabited

/-- A tool result envelope: `{ content, isError? }`. -/
structure ToolResult where
  content : List ContentBlock
  isError : Bool := false
deriving DecidableEq, Inhabited

/-- JS `String.prototype.toUpperCase` as used on two-letter region codes:
upper-cases every character (ASCII case mapping). -/
def toUpperCase (s : String) : String := ⟨s.data.map Char.toUpper⟩

/-- `formatAlertText` from the source. JS truthiness: an empty `instruction`
string is falsy, so it is appended only when present and nonempty. -/
def formatAlertText (alert : Alert) : String :=
  let props := alert.properties.getD {}
  let parts := [
    "Event: " ++ props.event.getD "Unknown",
    "Area: " ++ props.areaDesc.getD "Unknown",
    "Severity: " ++ props.severity.getD "Unknown",
    "Headline: " ++ props.headline.getD "No headline",
    "Description: " ++ props.description.getD "No description"]
  let parts :=
    match props.instruction with
    | some ins => if ins = "" then parts else parts ++ ["Instruction: " ++ ins]
    | none => parts
  String.intercalate "\n" parts

/-- The constant catch-path result of the `get_alerts` handler. -/
def alertsErrorResult : ToolResult :=
  { content := [⟨"Failed to fetch weather alerts from NWS API."⟩], isError := true }

/-- The constant catch-path result of the `get_forecast` handler. -/
def forecastErrorResult : ToolResult :=
  { content := [⟨"Failed to fetch weather forecast from NWS API."⟩], isError := true }

/-- URL built by the `get_alerts` handler for a (already normalized) state code. -/
def alertsUrl (code : String) : String :=
  "https://api.weather.gov/alerts/active/area/" ++ code

/-- Rendering of the alert list by the `get_alerts` handler:
`alerts.slice(0, 20).map((alert, idx) => ...).join("\n\n---\n\n")`. -/
def renderAlerts (alerts : List Alert) : String :=
  String.intercalate "\n\n---\n\n"
    ((alerts.take 20).mapIdx fun idx alert =>
      "Alert " ++ toString (idx + 1) ++ "\n" ++ formatAlertText alert)

/-- The `get_alerts` execution function. `upstream` models `nwsRequest`:
`Except.error` is a throw (non-OK status or unparseable body), landing in the
catch. Returns the tool result together with the list of URLs fetched. -/
def getAlertsHandler (upstream : String → Except String AlertsResponse)
    (state : String) : ToolResult × List String :=
  let normalizedState := toUpperCase state
  let url := alertsUrl normalizedState
  match upstream url with
  | .error _ => (alertsErrorResult, [url])
  | .ok data =>
    let alerts := data.features.getD []
    if alerts.length = 0 then
      ({ content := [⟨"No active weather alerts found for state " ++ normalizedState ++ "."⟩] },
        [url])
    else
      ({ content := [⟨renderAlerts alerts⟩] }, [url])

/-- Rendering of one forecast period by the `get_forecast` handler. -/
def formatPeriod (p : ForecastPeriod) : String :=
  String.intercalate "\n" [
    p.name.getD "Unknown period" ++ ": " ++ p.shortForecast.getD "No summary",
    ("Temp: " ++ (match p.temperature with | some t => toString t | none => "?")
      ++ " " ++ p.temperatureUnit.getD "").trim,
    ("Wind: " ++ p.windSpeed.getD "?" ++ " " ++ p.windDirection.getD "").trim,
    "Details: " ++ p.detailedForecast.getD "No detailed forecast"]

/-- Rendering of the period list by the `get_forecast` handler:
`periods.slice(0, 8).map(...).join("\n\n---\n\n")`. -/
def renderForecast (periods : List ForecastPeriod) : String :=
  String.intercalate "\n\n---\n\n" ((periods.take 8).map formatPeriod)

/-- The two upstream calls made by `get_forecast`, each modelled like
`nwsRequest` in `getAlertsHandler`. -/
structure NwsUpstream where
  points : String → Except String PointResponse
  forecast : String → Except String ForecastResponse

/-- URL built by the `get_forecast` handler for a coordinate pair. -/
def pointsUrl (latitude longitude : ℚ) : String :=
  "https://api.weather.gov/points/" ++ toString latitude ++ "," ++ toString longitude

/-- The `get_forecast` execution function. A missing or empty (JS-falsy)
forecast URL in the points response throws, landing in the same catch as a
failed fetch. Returns the tool result and the list of URLs fetched. -/
def getForecastHandler (up : NwsUpstream) (latitude longitude : ℚ) :
    ToolResult × List String :=
  let pUrl := pointsUrl latitude longitude
  match up.points pUrl with
  | .error _ => (forecastErrorResult, [pUrl])
  | .ok pts =>
    match pts.forecast with
    | none => (forecastErrorResult, [pUrl])
    | some fUrl =>
      if fUrl = "" then (forecastErrorResult, [pUrl])
      else
        match up.forecast fUrl with
        | .error _ => (forecastErrorResult, [pUrl, fUrl])
        | .ok fc =>
          let periods := fc.periods.getD []
          if periods.length = 0 then
            ({ content := [⟨"No forecast periods were returned for this location."⟩] },
              [pUrl, fUrl])
          else
            ({ content := [⟨renderForecast periods⟩] }, [pUrl, fUrl])

/-- Outcome of the Operation Registry dispatch for one tool call. -/
inductive DispatchResult where
  | ok (r : ToolResult)
  | validationError
deriving DecidableEq

/-- The zod schema bound of `get_forecast`:
`z.number().min(-90).max(90)` and `z.number().min(-180).max(180)`. -/
def latLonValid (lat lon : ℚ) : Bool :=
  decide (-90 ≤ lat) && decide (lat ≤ 90) && decide (-180 ≤ lon) && decide (lon ≤ 180)

/-- Modelled from the spec: the Operation Registry (the MCP SDK `server.tool`
machinery, not present under `src/`) validates raw params against the declared
zod schema and invokes the execution function only when validation succeeds;
on failure it fails with `ValidationError` without running the handler. The
schema itself is from the source (`src/unnamed/part_000` lines 80-83). The
second component is the list of upstream URLs contacted. -/
def dispatchForecast (up : NwsUpstream) (lat lon : ℚ) : DispatchResult × List String :=
  if latLonValid lat lon then
    let r := getForecastHandler up lat lon
    (.ok r.1, r.2)
  else (.validationError, [])

/-- Modelled from the spec: dispatch of `get_alerts` through the Operation
Registry; the schema `z.string().length(2)` is from the source
(`src/unnamed/part_000` line 37). -/
def dispatchAlerts (upstream : String → Except String AlertsResponse)
    (state : String) : DispatchResult × List String :=
  if state.length = 2 then
    let r := getAlertsHandler upstream state
    (.ok r.1, r.2)
  else (.validationError, [])

end Weather

namespace HttpMcp

/-- HTTP method of an inbound request; `main` checks POST, then GET/DELETE,
then answers 405 for anything else. -/
inductive Method where
  | post | get | delete | other
deriving DecidableEq

/-- Outcome of `readJsonBody`: an empty raw body yields `undefined`
(`empty`); `JSON.parse` throwing on a nonempty unparseable body is
`invalidJson`; a parsed JSON value is either an object with a `method` field
(`obj`, also carrying the JSON-RPC correlation id when present) or anything
else (`nonObject`). -/
inductive Body where
  | empty
  | invalidJson
  | nonObject
  | obj (method : String) (id : Option Int)
deriving DecidableEq

/-- `isInitializeRequest` from the source: the body is an object whose
`method` field equals the handshake method name. -/
def isInitRequest : Body → Bool
  | .obj m _ => m = "initialize"
  | _ => false

/-- Correlation id carried by a request body, when any. -/
def Body.corrId : Body → Option Int
  | .obj _ i => i
  | _ => none

/-- One inbound HTTP request. Session ids produced by `randomUUID` are
modelled as naturals, so the `mcp-session-id` header is an `Option Nat`. -/
structure HttpRequest where
  method : Method
  url : String
  sessionHeader : Option Nat
  body : Body
deriving DecidableEq

/-- Body of an HTTP response: the health payload, a JSON-RPC-shaped error
written by `sendJsonError`, or a response produced by the transport of
session `sid` (`transport.handleRequest`), carrying the correlation id the
engine echoes. -/
inductive RespBody where
  | health
  | rpcError (code : Int) (message : String) (id : Option Int)
  | engine (sid : Nat) (id : Option Int)
deriving DecidableEq

/-- An HTTP response: status code plus body. -/
structure HttpResponse where
  status : Nat
  body : RespBody
deriving DecidableEq

/-- Correlation id carried by a response body, when any. -/
def RespBody.corrId : RespBody → Option Int
  | .rpcError _ _ i => i
  | .engine _ i => i
  | .health => none

/-- `sendJsonError` from the source: writes the given status and a JSON-RPC
error body `{code: -32000, message, id: null}`. -/
def sendJsonError (statusCode : Nat) (message : String) : HttpResponse :=
  { status := statusCode, body := .rpcError (-32000) message none }

/-- Server state: the session registry (`sessions : Map`, keys only — each
entry owns a transport and an McpServer, opaque here) and the fresh-id
counter modelling `randomUUID`. -/
structure ServerState where
  sessions : List Nat
  nextId : Nat
deriving DecidableEq

/-- `transport.onclose` from the source: closes the McpServer of the session
and deletes the registry entry. -/
def closeSession (st : ServerState) (sid : Nat) : ServerState :=
  { st with sessions := st.sessions.erase sid }

/-- The request handler of `createHttpServer` in `main`
(`src/unnamed/part_000` lines 169-240), as a state transformer. Modelled
from the spec where the SDK transport is involved: `transport.handleRequest`
answers through the session engine echoing the correlation id of the request
envelope; on a DELETE it closes the transport, firing `onclose`; while
handling an initialization request it generates the fresh session id and
fires the registration callback before completing the handshake. -/
def handleHttp (st : ServerState) (req : HttpRequest) : HttpResponse × ServerState :=
  if req.url = "/health" then ({ status := 200, body := .health }, st)
  else if req.url ≠ "/mcp" then (sendJsonError 404 "Not found", st)
  else
    match req.method with
    | .post =>
      match req.body with
      | .invalidJson => (sendJsonError 500 "Internal server error", st)
      | body =>
        match req.sessionHeader with
        | some sid =>
          if sid ∈ st.sessions then
            ({ status := 200, body := .engine sid body.corrId }, st)
          else (sendJsonError 400 "Bad Request: No valid session ID provided", st)
        | none =>
          if isInitRequest body then
            ({ status := 200, body := .engine st.nextId body.corrId },
              { sessions := st.nextId :: st.sessions, nextId := st.nextId + 1 })
          else (sendJsonError 400 "Bad Request: No valid session ID provided", st)
    | .get =>
      match req.sessionHeader with
      | none => (sendJsonError 400 "Missing mcp-session-id header", st)
      | some sid =>
        if sid ∈ st.sessions then ({ status := 200, body := .engine sid none }, st)
        else (sendJsonError 404 "Session not found", st)
    | .delete =>
      match req.sessionHeader with
      | none => (sendJsonError 400 "Missing mcp-session-id header", st)
      | some sid =>
        if sid ∈ st.sessions then
          ({ status := 200, body := .engine sid none }, closeSession st sid)
        else (sendJsonError 404 "Session not found", st)
    | .other => (sendJsonError 405 "Method not allowed", st)

/-- Run a list of requests through the server, keeping the final state. -/
def runRequests (st : ServerState) (reqs : List HttpRequest) : ServerState :=
  reqs.foldl (fun s r => (handleHttp s r).2) st

/-- Registry invariant: every registered id was drawn from the counter, and
keys are unique (the registry is a `Map`). -/
def Inv (st : ServerState) : Prop :=
  (∀ s ∈ st.sessions, s < st.nextId) ∧ st.sessions.Nodup

/-- Events of the session-creation sequence inside
`transport.handleRequest` of an initialization request. -/
inductive CreationEvent where
  | genId (sid : Nat)
  | insertRegistry (sid : Nat)
  | handshakeComplete (sid : Nat)
deriving DecidableEq

/-- Modelled from the spec: the SDK `StreamableHTTPServerTransport` (not
under `src/`), while handling an initialization request, first calls
`sessionIdGenerator`, then fires the registration callback passed as
`onsessioninitialized` (which in `main` inserts the registry entry), and
only then completes the handshake by writing the response. Each event is
paired with the server state visible to any other request interleaved at
that point. -/
def initCreationTrace (st : ServerState) : List (CreationEvent × ServerState) :=
  let sid := st.nextId
  let stInserted : ServerState := { sessions := sid :: st.sessions, nextId := st.nextId + 1 }
  [(.genId sid, st), (.insertRegistry sid, stInserted), (.handshakeComplete sid, stInserted)]

/-- A request to the protocol endpoint `/mcp`. -/
def mkReq (m : Method) (hdr : Option Nat) (body : Body) : HttpRequest :=
  { method := m, url := "/mcp", sessionHeader := hdr, body := body }

/-- An initialization request: POST to the endpoint with no session header
and an `initialize` body. -/
def initRequest (cid : Option Int) : HttpRequest :=
  { method := .post, url := "/mcp", sessionHeader := none, body := .obj "initialize" cid }

/-- A subsequent tool-call request carrying a session id. -/
def toolCallRequest (sid : Nat) : HttpRequest :=
  { method := .post, url := "/mcp", sessionHeader := some sid, body := .obj "tools/call" none }

/-- Response sid, when the response was produced by a session transport. -/
def respSid (r : HttpResponse) : Option Nat :=
  match r.body with
  | .engine s _ => some s
  | _ => none

/-- `n` initialization requests handled back to back by the event loop:
returns the session ids carried by the engine responses, in order, and the
final state. -/
def createN : Nat → ServerState → List Nat × ServerState
  | 0, st => ([], st)
  | n + 1, st =>
    let p := handleHttp st (initRequest none)
    let q := createN n p.2
    ((respSid p.1).toList ++ q.1, q.2)

end HttpMcp

open Weather HttpMcp

/-- Auxiliary: every request leaves the server state unchanged, inserts the
fresh id, or closes one session. -/
theorem handleHttp_state_cases (st : ServerState) (req : HttpRequest) :
    (handleHttp st req).2 = st
    ∨ (handleHttp st req).2 = { sessions := st.nextId :: st.sessions, nextId := st.nextId + 1 }
    ∨ ∃ sid, (handleHttp st req).2 = closeSession st sid := by
  rcases req with ⟨m, url, hdr, body⟩
  unfold handleHttp
  dsimp only
  repeat' split
  all_goals first
    | exact Or.inl rfl
    | exact Or.inr (Or.inl rfl)
    | exact Or.inr (Or.inr ⟨_, rfl⟩)

/-- Auxiliary: an id that is absent from the registry and below the fresh-id
counter stays absent and below the counter across any single request. -/
theorem absent_preserved (st : ServerState) (req : HttpRequest) (sid : Nat)
    (h1 : sid ∉ st.sessions) (h2 : sid < st.nextId) :
    sid ∉ (handleHttp st req).2.sessions ∧ sid < (handleHttp st req).2.nextId := by
  rcases handleHttp_state_cases st req with h | h | ⟨s, h⟩
  · rw [h]; exact ⟨h1, h2⟩
  · rw [h]
    refine ⟨?_, Nat.lt_succ_of_lt h2⟩
    intro hmem
    rcases List.mem_cons.mp hmem with rfl | hmem
    · exact absurd rfl (Nat.ne_of_lt h2)
    · exact h1 hmem
  · rw [h]
    exact ⟨fun hmem => h1 (List.mem_of_mem_erase hmem), h2⟩

/-- Auxiliary: the same, across any sequence of requests. -/
theorem absent_run (st : ServerState) (sid : Nat)
    (h1 : sid ∉ st.sessions) (h2 : sid < st.nextId) (reqs : List HttpRequest) :
    sid ∉ (runRequests st reqs).sessions := by
  induction reqs generalizing st with
  | nil => exact h1
  | cons r rs ih =>
    have h := absent_preserved st r sid h1 h2
    exact ih (handleHttp st r).2 h.1 h.2

/-- Auxiliary: handling an initialization request creates the session under
the fresh id and bumps the counter. -/
theorem handleHttp_init (st : ServerState) (cid : Option Int) :
    handleHttp st (initRequest cid) =
      ({ status := 200, body := .engine st.nextId cid },
        { sessions := st.nextId :: st.sessions, nextId := st.nextId + 1 }) := rfl

/-- Auxiliary: a request carrying a registered session id is routed to that
session. -/
theorem handleHttp_toolCall (st : ServerState) (sid : Nat) (h : sid ∈ st.sessions) :
    handleHttp st (toolCallRequest sid) = ({ status := 200, body := .engine sid none }, st) := by
  simp [handleHttp, toolCallRequest, h, Body.corrId]

/-- Auxiliary: explicit form of `createN`. -/
theorem createN_spec (n : Nat) (st : ServerState) :
    createN n st = (List.range' st.nextId n,
      { sessions := (List.range' st.nextId n).reverse ++ st.sessions,
        nextId := st.nextId + n }) := by
  induction n generalizing st with
  | zero => simp [createN]
  | succ n ih =>
    rw [createN, handleHttp_init]
    dsimp only [respSid]
    rw [ih]
    simp [List.range'_succ, List.append_assoc, Nat.add_comm, Nat.add_left_comm]

/-- C1: during session creation the registry entry is inserted (the
registration callback fires) strictly before the completion of the handshake
in the creation sequence, and from the insertion event onward any
interleaved request carrying the new session id observes the session present
and is routed to it. -/
theorem c1_insert_before_handshake (st : ServerState) (body : Body)
    (hb : body ≠ .invalidJson) :
    (initCreationTrace st).map Prod.fst =
      [.genId st.nextId, .insertRegistry st.nextId, .handshakeComplete st.nextId]
    ∧ ∀ p ∈ (initCreationTrace st).drop 1,
        handleHttp p.2 (mkReq .post (some st.nextId) body)
          = ({ status := 200, body := .engine st.nextId body.corrId }, p.2) := by
  refine ⟨rfl, ?_⟩
  intro p hp
  simp only [initCreationTrace, List.drop_succ_cons, List.drop_zero, List.mem_cons,
    List.not_mem_nil, or_false] at hp
  have hmem : st.nextId ∈ p.2.sessions := by
    rcases hp with rfl | rfl <;> exact List.mem_cons_self _ _
  cases body with
  | invalidJson => exact absurd rfl hb
  | empty => simp [handleHttp, mkReq, hmem, Body.corrId]
  | nonObject => simp [handleHttp, mkReq, hmem, Body.corrId]
  | obj m i => simp [handleHttp, mkReq, hmem, Body.corrId]

/-- C1 witness at the empty initial state and a tool-call body. -/
theorem c1_witness :
    ((Body.obj "tools/call" (some 3)) ≠ Body.invalidJson)
    ∧ ∀ p ∈ (initCreationTrace ⟨[], 0⟩).drop 1,
        handleHttp p.2 (mkReq .post (some 0) (.obj "tools/call" (some 3)))
          = ({ status := 200, body := .engine 0 (some 3) }, p.2) :=
  ⟨by decide, (c1_insert_before_handshake ⟨[], 0⟩ (.obj "tools/call" (some 3)) (by decide)).2⟩

/-- C2 counterexample: the request envelope carries correlation id 42, but
the error response written by the boundary (`sendJsonError`) carries id
`null`, not 42. -/
theorem c2_counterexample :
    ((handleHttp ⟨[], 0⟩ (mkReq .post none (.obj "tools/call" (some 42)))).1.body.corrId = none)
    ∧ (Body.obj "tools/call" (some 42)).corrId = some 42
    ∧ ((none : Option Int) ≠ some 42) := by decide

/-- Auxiliary: shape of every response to a POST on the protocol endpoint —
either one of the two boundary error bodies (both with correlation id
`null`) or an engine answer echoing the correlation id of the request. -/
theorem handleHttp_post_shape (st : ServerState) (hdr : Option Nat) (body : Body) :
    (handleHttp st (mkReq .post hdr body)).1.body
      = .rpcError (-32000) "Internal server error" none
    ∨ (handleHttp st (mkReq .post hdr body)).1.body
      = .rpcError (-32000) "Bad Request: No valid session ID provided" none
    ∨ ∃ sid, (handleHttp st (mkReq .post hdr body)).1.body
      = .engine sid body.corrId := by
  unfold handleHttp
  cases body <;> rcases hdr with _ | sid <;> dsimp only [mkReq] <;>
    repeat' split
  all_goals simp_all [sendJsonError, Body.corrId]

/-- C2 amended: a POST request envelope with correlation id `X` yields a
response with `X` on the success path (the engine echoes the id), but every
boundary error path answers with a JSON-RPC error envelope whose correlation
id is `null`, regardless of `X`. -/
theorem c2_corr_id (st : ServerState) (hdr : Option Nat) (body : Body) :
    (∀ c msg i, (handleHttp st (mkReq .post hdr body)).1.body = .rpcError c msg i → i = none)
    ∧ (∀ sid i, (handleHttp st (mkReq .post hdr body)).1.body = .engine sid i
        → i = body.corrId) := by
  have h := handleHttp_post_shape st hdr body
  constructor
  · intro c msg i hi
    rcases h with h | h | ⟨s, h⟩ <;> rw [h] at hi <;> simp_all
  · intro sid i hi
    rcases h with h | h | ⟨s, h⟩ <;> rw [h] at hi <;> simp_all

/-- C2 witness: an initialization request with correlation id 7 is answered
through the engine with the same id. -/
theorem c2_witness :
    ((handleHttp ⟨[], 0⟩ (initRequest (some 7))).1.body = .engine 0 (some 7))
    ∧ ((some 7 : Option Int) = (Body.obj "initialize" (some 7)).corrId) :=
  ⟨by decide, ((c2_corr_id ⟨[], 0⟩ none (.obj "initialize" (some 7))).2 0 (some 7) (by decide))⟩

/-- C3 counterexample: a POST carrying an unknown session id and a POST
carrying no session id at all receive the identical 400 response, so the two
session-identifier failure cases are not distinguished on the POST path. -/
theorem c3_counterexample :
    handleHttp ⟨[], 0⟩ (mkReq .post (some 99) (.obj "tools/call" none))
      = handleHttp ⟨[], 0⟩ (mkReq .post none (.obj "tools/call" none))
    ∧ (handleHttp ⟨[], 0⟩ (mkReq .post (some 99) (.obj "tools/call" none))).1
      = sendJsonError 400 "Bad Request: No valid session ID provided" := by decide

/-- C3 amended: every request failing on a session-identifier problem gets a
400/404-class error and no session is created (the state is unchanged); the
GET/DELETE path distinguishes a missing id (400) from an unknown id (404),
while the POST path answers one undistinguished 400 for both cases. -/
theorem c3_session_errors (st : ServerState) (sid : Nat) (body : Body)
    (h : sid ∉ st.sessions) (hb : body ≠ .invalidJson)
    (hni : isInitRequest body = false) :
    handleHttp st (mkReq .post (some sid) body)
      = (sendJsonError 400 "Bad Request: No valid session ID provided", st)
    ∧ handleHttp st (mkReq .post none body)
      = (sendJsonError 400 "Bad Request: No valid session ID provided", st)
    ∧ handleHttp st (mkReq .get none body)
      = (sendJsonError 400 "Missing mcp-session-id header", st)
    ∧ handleHttp st (mkReq .delete none body)
      = (sendJsonError 400 "Missing mcp-session-id header", st)
    ∧ handleHttp st (mkReq .get (some sid) body)
      = (sendJsonError 404 "Session not found", st)
    ∧ handleHttp st (mkReq .delete (some sid) body)
      = (sendJsonError 404 "Session not found", st) := by
  cases body <;> simp_all [handleHttp, mkReq, isInitRequest]

/-- C3 witness at a concrete state and unknown id. -/
theorem c3_witness :
    (3 ∉ (⟨[5], 6⟩ : ServerState).sessions
      ∧ (Body.obj "tools/call" none) ≠ Body.invalidJson
      ∧ isInitRequest (.obj "tools/call" none) = false)
    ∧ handleHttp ⟨[5], 6⟩ (mkReq .get (some 3) (.obj "tools/call" none))
      = (sendJsonError 404 "Session not found", ⟨[5], 6⟩) :=
  ⟨⟨by decide, by decide, by decide⟩,
    (c3_session_errors ⟨[5], 6⟩ 3 (.obj "tools/call" none)
      (by decide) (by decide) (by decide)).2.2.2.2.1⟩

/-- C4 counterexample: a POST to the protocol endpoint with an unparseable
JSON body is answered with status 500 (the throw of `JSON.parse` lands in
the outer catch handler), which is not a 400-class status. -/
theorem c4_counterexample :
    (handleHttp ⟨[], 0⟩ (mkReq .post none .invalidJson)).1.status = 500
    ∧ ¬(400 ≤ (handleHttp ⟨[], 0⟩ (mkReq .post none .invalidJson)).1.status
      ∧ (handleHttp ⟨[], 0⟩ (mkReq .post none .invalidJson)).1.status < 500) := by decide

/-- C4 amended: every POST to the protocol endpoint whose body is
unparseable as JSON is answered with a 500-class error carrying a generic
JSON-RPC-shaped error body (`{code: -32000, message: "Internal server
error", id: null}`), and the registry is untouched. -/
theorem c4_malformed_body (st : ServerState) (hdr : Option Nat) :
    handleHttp st (mkReq .post hdr .invalidJson)
      = (sendJsonError 500 "Internal server error", st)
    ∧ sendJsonError 500 "Internal server error"
      = { status := 500, body := .rpcError (-32000) "Internal server error" none } := by
  cases hdr <;> exact ⟨rfl, rfl⟩

/-- C5 counterexample: after session 0 has been created and closed, a POST
carrying id 0 fails, but with the 400 no-valid-session response of the POST
path, not with the 404 `SessionNotFound` response the code uses for an
unknown session. -/
theorem c5_counterexample :
    (handleHttp (closeSession ⟨[0], 1⟩ 0) (toolCallRequest 0)).1
      = sendJsonError 400 "Bad Request: No valid session ID provided"
    ∧ (handleHttp (closeSession ⟨[0], 1⟩ 0) (toolCallRequest 0)).1
      ≠ sendJsonError 404 "Session not found" := by decide

/-- C5 amended: after `closeSession id` the id is gone from the registry and
every subsequent request carrying it fails without being routed to a session
(GET/DELETE: 404 `Session not found`; POST: the 400 no-valid-session
response), and the closed id never reappears in the registry under any
further sequence of requests. -/
theorem c5_closed_session (st : ServerState) (sid : Nat) (body : Body)
    (hinv : Inv st) (hmem : sid ∈ st.sessions) (hb : body ≠ .invalidJson) :
    sid ∉ (closeSession st sid).sessions
    ∧ handleHttp (closeSession st sid) (mkReq .get (some sid) body)
      = (sendJsonError 404 "Session not found", closeSession st sid)
    ∧ handleHttp (closeSession st sid) (mkReq .delete (some sid) body)
      = (sendJsonError 404 "Session not found", closeSession st sid)
    ∧ handleHttp (closeSession st sid) (mkReq .post (some sid) body)
      = (sendJsonError 400 "Bad Request: No valid session ID provided", closeSession st sid)
    ∧ ∀ reqs, sid ∉ (runRequests (closeSession st sid) reqs).sessions := by
  have habs : sid ∉ (closeSession st sid).sessions := by
    intro h
    exact absurd ((hinv.2.mem_erase_iff).mp h).1 (by simp)
  have hlt : sid < (closeSession st sid).nextId := hinv.1 sid hmem
  refine ⟨habs, ?_, ?_, ?_, fun reqs => absent_run _ _ habs hlt reqs⟩
  · simp [handleHttp, mkReq, habs]
  · simp [handleHttp, mkReq, habs]
  · cases body <;> simp_all [handleHttp, mkReq]

/-- C5 witness at the one-session state. -/
theorem c5_witness :
    (Inv ⟨[0], 1⟩ ∧ 0 ∈ (⟨[0], 1⟩ : ServerState).sessions
      ∧ (Body.obj "tools/call" none) ≠ Body.invalidJson)
    ∧ handleHttp (closeSession ⟨[0], 1⟩ 0) (mkReq .get (some 0) (.obj "tools/call" none))
      = (sendJsonError 404 "Session not found", closeSession ⟨[0], 1⟩ 0) :=
  ⟨⟨⟨by decide, by decide⟩, by decide, by decide⟩,
    (c5_closed_session ⟨[0], 1⟩ 0 (.obj "tools/call" none)
      ⟨by decide, by decide⟩ (by decide) (by decide)).2.1⟩

/-- C6: `n` initialization requests with no session id arriving back to back
produce `n` pairwise-distinct session identifiers, each of which is present
in the final registry and independently routable by a subsequent request
carrying it; no two creations are merged or share an identifier. -/
theorem c6_distinct_sessions (n : Nat) (st : ServerState) :
    (createN n st).1.length = n
    ∧ (createN n st).1.Nodup
    ∧ ∀ sid ∈ (createN n st).1,
        sid ∈ (createN n st).2.sessions
        ∧ handleHttp (createN n st).2 (toolCallRequest sid)
          = ({ status := 200, body := .engine sid none }, (createN n st).2) := by
  rw [createN_spec]
  refine ⟨List.length_range' _ _ _, List.nodup_range' _ _ 1 Nat.one_pos, ?_⟩
  intro sid hsid
  have hmem : sid ∈ ((List.range' st.nextId n).reverse ++ st.sessions : List Nat) :=
    List.mem_append.mpr (Or.inl (List.mem_reverse.mpr hsid))
  exact ⟨hmem, handleHttp_toolCall _ _ hmem⟩

/-- C6 witness: two simultaneous creations from the empty state yield the
distinct ids 0 and 1, and id 1 is routable afterward. -/
theorem c6_witness :
    (createN 2 ⟨[], 0⟩).1.length = 2
    ∧ (createN 2 ⟨[], 0⟩).1.Nodup
    ∧ handleHttp (createN 2 ⟨[], 0⟩).2 (toolCallRequest 1)
      = ({ status := 200, body := .engine 1 none }, (createN 2 ⟨[], 0⟩).2) :=
  ⟨(c6_distinct_sessions 2 ⟨[], 0⟩).1, (c6_distinct_sessions 2 ⟨[], 0⟩).2.1,
    ((c6_distinct_sessions 2 ⟨[], 0⟩).2.2 1 (by decide)).2⟩

/-- Auxiliary: the `get_alerts` handler fetches exactly one URL, built from
the upper-cased state code. -/
theorem getAlertsHandler_fetched (upstream : String → Except String AlertsResponse)
    (state : String) :
    (getAlertsHandler upstream state).2 = [alertsUrl (toUpperCase state)] := by
  simp only [getAlertsHandler]
  rcases upstream (alertsUrl (toUpperCase state)) with e | data
  · rfl
  · dsimp only
    split <;> rfl

/-- C7: whenever an upstream call of a domain operation fails (a throw in
`nwsRequest` covering non-OK HTTP status or an unparseable body, or a missing
forecast URL in the points response), the handler returns a successful result
envelope holding a single error-flagged text block with a generic, constant
failure description (independent of the upstream error detail `e`, so no raw
upstream error body is propagated), never a transport-level error. -/
theorem c7_upstream_failure_generic (state : String) (e : String)
    (upA : String → Except String AlertsResponse)
    (hA : upA (alertsUrl (toUpperCase state)) = .error e)
    (up : NwsUpstream) (lat lon : ℚ) :
    (getAlertsHandler upA state).1 = alertsErrorResult
    ∧ (up.points (pointsUrl lat lon) = .error e →
        (getForecastHandler up lat lon).1 = forecastErrorResult)
    ∧ (up.points (pointsUrl lat lon) = .ok { forecast := none } →
        (getForecastHandler up lat lon).1 = forecastErrorResult)
    ∧ (∀ fUrl, up.points (pointsUrl lat lon) = .ok { forecast := some fUrl } →
        up.forecast fUrl = .error e →
        (getForecastHandler up lat lon).1 = forecastErrorResult)
    ∧ alertsErrorResult.isError = true ∧ alertsErrorResult.content.length = 1
    ∧ forecastErrorResult.isError = true ∧ forecastErrorResult.content.length = 1 := by
  refine ⟨?_, ?_, ?_, ?_, rfl, rfl, rfl, rfl⟩
  · simp only [getAlertsHandler]
    rw [hA]
  · intro h
    simp only [getForecastHandler]
    rw [h]
  · intro h
    simp only [getForecastHandler]
    rw [h]
  · intro fUrl h hf
    simp only [getForecastHandler]
    rw [h]
    by_cases hu : fUrl = ""
    · simp [hu]
    · simp [hu, hf]

/-- C7 witness at a concrete failing upstream. -/
theorem c7_witness :
    ((fun _ => Except.error "boom" : String → Except String AlertsResponse)
        (alertsUrl (toUpperCase "CA")) = Except.error "boom")
    ∧ (getAlertsHandler (fun _ => Except.error "boom") "CA").1 = alertsErrorResult :=
  ⟨rfl, (c7_upstream_failure_generic "CA" "boom" (fun _ => Except.error "boom") rfl
    ⟨fun _ => Except.error "boom", fun _ => Except.error "boom"⟩ 0 0).1⟩

/-- C8: `dispatch` of `get_forecast` accepts exactly the coordinate pairs
with latitude in `[-90, 90]` and longitude in `[-180, 180]`; outside that
range it fails with `ValidationError` and the list of upstream URLs
contacted is empty (no external collaborator is reached). -/
theorem c8_forecast_bounds (up : NwsUpstream) (lat lon : ℚ) :
    ((dispatchForecast up lat lon).1 ≠ DispatchResult.validationError ↔
      (-90 ≤ lat ∧ lat ≤ 90 ∧ -180 ≤ lon ∧ lon ≤ 180))
    ∧ ((dispatchForecast up lat lon).1 = DispatchResult.validationError →
      (dispatchForecast up lat lon).2 = []) := by
  unfold dispatchForecast
  by_cases h : latLonValid lat lon
  · have hb : (-90 ≤ lat ∧ lat ≤ 90 ∧ -180 ≤ lon ∧ lon ≤ 180) := by
      have := h
      unfold latLonValid at this
      simp only [Bool.and_eq_true, decide_eq_true_eq] at this
      tauto
    simp [h, hb]
  · have hb : ¬(-90 ≤ lat ∧ lat ≤ 90 ∧ -180 ≤ lon ∧ lon ≤ 180) := by
      intro hc
      apply h
      unfold latLonValid
      simp only [Bool.and_eq_true, decide_eq_true_eq]
      tauto
    simp [h, hb]

/-- C8 witness: latitude 100 is rejected with no upstream contact. -/
theorem c8_witness :
    (dispatchForecast ⟨fun _ => Except.error "", fun _ => Except.error ""⟩ 100 0).1
      = DispatchResult.validationError
    ∧ (dispatchForecast ⟨fun _ => Except.error "", fun _ => Except.error ""⟩ 100 0).2 = [] :=
  ⟨by decide,
    (c8_forecast_bounds ⟨fun _ => Except.error "", fun _ => Except.error ""⟩ 100 0).2
      (by decide)⟩

/-- C9: for every two-character region code, `dispatch` of `get_alerts`
invokes the domain operation with the upper-cased code: the only downstream
reference constructed is the alerts URL built from `toUpperCase state`. -/
theorem c9_alerts_normalization (upstream : String → Except String AlertsResponse)
    (state : String) (h : state.length = 2) :
    (dispatchAlerts upstream state).2 = [alertsUrl (toUpperCase state)] := by
  unfold dispatchAlerts
  simp [h, getAlertsHandler_fetched]

/-- C9 witness: input `"ca"` leads to the downstream reference `".../CA"`. -/
theorem c9_witness :
    ("ca".length = 2)
    ∧ (dispatchAlerts (fun _ => Except.error "x") "ca").2
      = ["https://api.weather.gov/alerts/active/area/CA"] :=
  ⟨by decide,
    (c9_alerts_normalization (fun _ => Except.error "x") "ca" (by decide)).trans (by decide)⟩

/-- C10: the rendered output of `get_alerts` uses at most the first 20
alerts of the upstream response, in upstream order, and the rendered output
of `get_forecast` uses at most the first 8 periods; further entries are
silently dropped (rendering depends only on the truncated lists, which are
bounded-length initial segments of the upstream lists). -/
theorem c10_truncation (alerts : List Alert) (periods : List ForecastPeriod)
    (lat lon : ℚ) (hA : alerts ≠ []) (hP : periods ≠ []) :
    renderAlerts alerts = renderAlerts (alerts.take 20)
    ∧ alerts.take 20 <+: alerts ∧ (alerts.take 20).length ≤ 20
    ∧ (∀ s, (getAlertsHandler (fun _ => .ok { features := some alerts }) s).1.content
        = [⟨renderAlerts alerts⟩])
    ∧ renderForecast periods = renderForecast (periods.take 8)
    ∧ periods.take 8 <+: periods ∧ (periods.take 8).length ≤ 8
    ∧ (getForecastHandler
        ⟨fun _ => .ok { forecast := some "u" }, fun _ => .ok { periods := some periods }⟩
        lat lon).1.content = [⟨renderForecast periods⟩] := by
  refine ⟨?_, ⟨alerts.drop 20, List.take_append_drop 20 alerts⟩, ?_, ?_, ?_,
    ⟨periods.drop 8, List.take_append_drop 8 periods⟩, ?_, ?_⟩
  · simp [renderAlerts, List.take_take]
  · simp [List.length_take]
  · intro s
    simp only [getAlertsHandler]
    simp [List.length_eq_zero, hA]
  · simp [renderForecast, List.take_take]
  · simp [List.length_take]
  · simp only [getForecastHandler]
    simp [List.length_eq_zero, hP]

/-- C10 witness at 21 upstream alerts and 9 upstream periods. -/
theorem c10_witness :
    (List.replicate 21 ({} : Alert) ≠ [] ∧ List.replicate 9 ({} : ForecastPeriod) ≠ [])
    ∧ renderAlerts (List.replicate 21 {}) = renderAlerts ((List.replicate 21 {}).take 20)
    ∧ ((List.replicate 9 ({} : ForecastPeriod)).take 8).length ≤ 8 :=
  ⟨⟨by decide, by decide⟩,
    (c10_truncation (List.replicate 21 {}) (List.replicate 9 {}) 0 0
      (by decide) (by decide)).1,
    (c10_truncation (List.replicate 21 {}) (List.replicate 9 {}) 0 0
      (by decide) (by decide)).2.2.2.2.2.2.1⟩
